import Mathlib

/-!
Shallow embedding of the JAX parallelization notebook
(`03-JaxParallelization.ipynb`).  Arrays of rank 0, 1 and 2 over the
rationals stand in for `jnp` float arrays; an operation that would raise a
shape error in numpy/JAX returns `none`.
-/

/-- A jnp array of rank 0, 1 or 2 with rational entries. -/
inductive Arr where
  | scalar : ℚ → Arr
  | vec : List ℚ → Arr
  | mat : List (List ℚ) → Arr
deriving DecidableEq, Repr

/-- Inner product of two equally long rows (no length check: callers check). -/
def dotq (v w : List ℚ) : ℚ := (List.zipWith (· * ·) v w).sum

/-- Number of columns of a matrix (length of its first row). -/
def ncols (m : List (List ℚ)) : ℕ := (m.headD []).length

/-- numpy transpose `.T` of a (rectangular) rank-2 array:
`(transposeQ m)[j][i] = m[i][j]`. -/
def transposeQ (m : List (List ℚ)) : List (List ℚ) :=
  (List.range (ncols m)).map (fun j => m.map (fun row => row.getD j 0))

/-- `jnp.dot` / the `.dot` method: matrix-vector, matrix-matrix,
vector-matrix and vector-vector products with the numpy shape rules;
a dimension mismatch is a `TypeError`, modelled as `none`. -/
def np_dot : Arr → Arr → Option Arr
  | .scalar a, .scalar c => some (.scalar (a * c))
  | .scalar a, .vec v => some (.vec (v.map (a * ·)))
  | .vec v, .scalar a => some (.vec (v.map (· * a)))
  | .scalar a, .mat m => some (.mat (m.map (List.map (a * ·))))
  | .mat m, .scalar a => some (.mat (m.map (List.map (· * a))))
  | .vec v, .vec w =>
      if v.length = w.length then some (.scalar (dotq v w)) else none
  | .mat m, .vec v =>
      if m.all (fun r => r.length = v.length)
      then some (.vec (m.map (fun r => dotq r v))) else none
  | .vec v, .mat m =>
      if v.length = m.length
      then some (.vec ((transposeQ m).map (fun c => dotq v c))) else none
  | .mat m, .mat n =>
      if ncols m = n.length
      then some (.mat (m.map (fun r => (transposeQ n).map (fun c => dotq r c))))
      else none

/-- Elementwise `+` on jnp arrays, with the broadcasting cases the
notebook exercises (scalar against anything, equal-shape arrays, and a
rank-1 array broadcast across the rows of a rank-2 array). -/
def np_add : Arr → Arr → Option Arr
  | .scalar a, .scalar c => some (.scalar (a + c))
  | .scalar a, .vec v => some (.vec (v.map (a + ·)))
  | .vec v, .scalar a => some (.vec (v.map (· + a)))
  | .scalar a, .mat m => some (.mat (m.map (List.map (a + ·))))
  | .mat m, .scalar a => some (.mat (m.map (List.map (· + a))))
  | .vec v, .vec w =>
      if v.length = w.length then some (.vec (List.zipWith (· + ·) v w))
      else none
  | .mat m, .vec v =>
      if m.all (fun r => r.length = v.length)
      then some (.mat (m.map (fun r => List.zipWith (· + ·) r v))) else none
  | .vec v, .mat m =>
      if m.all (fun r => r.length = v.length)
      then some (.mat (m.map (fun r => List.zipWith (· + ·) v r))) else none
  | .mat m, .mat n =>
      if m.length = n.length ∧ (List.zip m n).all (fun p => p.1.length = p.2.length)
      then some (.mat (List.zipWith (fun r s => List.zipWith (· + ·) r s) m n))
      else none

/-- `def dense_layer(x): W = ...; b = ...; return W.dot(x) + b`. -/
def dense_layer (x : Arr) : Option Arr :=
  let W : List (List ℚ) := [[2/10, 4/10], [9/10, 2/10]]
  let b : List ℚ := [2/10, 3/10]
  do
    let y ← np_dot (.mat W) x
    np_add y (.vec b)

/-- `jnp.einsum('ij,bj->bi', W, x)`: `x` must be rank 2 and its second
dimension must match the `j` dimension of `W`; otherwise an error. -/
def einsum_ij_bj_bi (W : List (List ℚ)) (x : Arr) : Option (List (List ℚ)) :=
  match x with
  | .mat X =>
      if X.all (fun r => r.length = ncols W)
      then some (X.map (fun xr => W.map (fun wr => dotq wr xr)))
      else none
  | _ => none

/-- `def einsum_layer(x): ... return jnp.einsum('ij,bj->bi',W,x) + b`. -/
def einsum_layer (x : Arr) : Option Arr :=
  let W : List (List ℚ) := [[2/10, 4/10], [9/10, 2/10]]
  let b : List ℚ := [2/10, 3/10]
  do
    let y ← einsum_ij_bj_bi W x
    np_add (.mat y) (.vec b)

/-- `def transpose_layer(x): ... return x.dot(W.T) + b`. -/
def transpose_layer (x : Arr) : Option Arr :=
  let W : List (List ℚ) := [[2/10, 4/10], [9/10, 2/10]]
  let b : List ℚ := [2/10, 3/10]
  do
    let y ← np_dot x (.mat (transposeQ W))
    np_add y (.vec b)

/-- The first, unbatched input `inputs = jnp.array([1.1,1.2])`. -/
def inputs0 : List ℚ := [11/10, 12/10]

/-- The batch `inputs = jnp.array([[1.1,1.2],[2.1,2.2],[3.1,3.2]])`. -/
def inputs : List (List ℚ) :=
  [[11/10, 12/10], [21/10, 22/10], [31/10, 32/10]]

/-- Extract the rank-1 payload of an array. -/
def Arr.asVec : Arr → Option (List ℚ)
  | .vec v => some v
  | _ => none

/-- `jax.vmap(f)` with the default `in_axes=0`, applied to a rank-2 input:
`f` is mapped over the rows (axis-0 slices), and the rank-1 results are
stacked back along axis 0.  (Outputs of other ranks are outside this
rank-2 model.) -/
def vmap0 (f : Arr → Option Arr) (x : Arr) : Option Arr :=
  match x with
  | .mat X => do
      let rows ← X.mapM (fun r => do (← f (.vec r)).asVec)
      pure (.mat rows)
  | _ => none

/-- `batched_dense = jax.vmap(dense_layer)`. -/
def batched_dense : Arr → Option Arr := vmap0 dense_layer

/-- `def func(x,y): return x+y` (cell 13). -/
def func_add (x y : ℚ) : ℚ := x + y

/-- `def func(x,y): return x*y` (cell 18). -/
def func_mul (x y : ℚ) : ℚ := x * y

/-- `def func(x,y): return jnp.sin(x)*y` (cell 20), with `jnp.sin`
abstracted as a parameter `s` (an exact rational model of `sin` does not
exist; every theorem below holds for each `s`). -/
def func_siny (s : ℚ → ℚ) (x y : ℚ) : ℚ := s x * y

/-- `jax.vmap(func, in_axes=(0,0))` on two rank-1 arrays: both arguments
are iterated in lock-step; the batch sizes must agree. -/
def vmap00 (f : ℚ → ℚ → ℚ) (x y : List ℚ) : Option (List ℚ) :=
  if x.length = y.length then some (List.zipWith f x y) else none

/-- `jax.vmap(func, in_axes=(1,0), out_axes=o)` on a rank-2 `x` batched
along its second axis and a rank-2 `y` batched along its first axis:
`f` receives the axis-1 slices (columns) of `x` paired with the axis-0
slices (rows) of `y`, and the results are stacked along axis `o`. -/
def vmap_in10 (f : List ℚ → List ℚ → Option (List ℚ)) (outAxis : ℕ)
    (x y : List (List ℚ)) : Option (List (List ℚ)) :=
  let xs := transposeQ x
  if xs.length = y.length then do
    let rows ← (List.zip xs y).mapM (fun p => f p.1 p.2)
    pure (if outAxis = 1 then transposeQ rows else rows)
  else none

/-- The body `x+y` as `f` receives it inside `vmap_in10`: elementwise
addition of two equally-shaped rank-1 slices. -/
def addVec (v w : List ℚ) : Option (List ℚ) :=
  if v.length = w.length then some (List.zipWith (· + ·) v w) else none

/-- `jax.vmap(func, in_axes=(None,0))` at scalar level: the first
argument is reused unchanged for every batch element of the second. -/
def vmap_none0 (f : ℚ → ℚ → ℚ) (x : ℚ) (ys : List ℚ) : List ℚ :=
  ys.map (f x)

/-- `jax.vmap(g, in_axes=(0,None))` for `g` taking a scalar and a rank-1
array: `g` is mapped over the first argument, the second rides along. -/
def vmap_0none (g : ℚ → List ℚ → List ℚ) (xs ys : List ℚ) : List (List ℚ) :=
  xs.map (fun x => g x ys)

/-- `jnp.linspace(a, b)` with the default `num=50` generalised to `n`
evenly spaced points from `a` to `b` inclusive. -/
def linspace (a b : ℚ) (n : ℕ) : List ℚ :=
  (List.range n).map (fun i : ℕ => a + (b - a) * (i : ℚ) / ((n : ℚ) - 1))

/-- `x_range = jnp.linspace(-5,5)`. -/
def x_range : List ℚ := linspace (-5) 5 50

/-- `y_range = jnp.linspace(-2,2)`. -/
def y_range : List ℚ := linspace (-2) 2 50

/-- `out = jax.vmap(jax.vmap(func, in_axes=(None,0)), in_axes=(0,None))
(x_range, y_range)` (cell 20), for an abstract `sin` model `s`. -/
def grid_out (s : ℚ → ℚ) : List (List ℚ) :=
  vmap_0none (vmap_none0 (func_siny s)) x_range y_range

/-! ### Helper lemmas -/

theorem getD_map_of_lt {α β : Type} (f : α → β) :
    ∀ (l : List α) (i : ℕ), i < l.length →
      ∀ (d : β) (d' : α), (l.map f).getD i d = f (l.getD i d')
  | _ :: _, 0, _, _, _ => by simp
  | _ :: t, i + 1, h, d, d' => by
      simp only [List.map_cons, List.getD_cons_succ]
      exact getD_map_of_lt f t i (by simpa using h) d d'

theorem linspace_length (a b : ℚ) (n : ℕ) : (linspace a b n).length = n := by
  rw [linspace, List.length_map, List.length_range]

theorem vmap_0none_length (g : ℚ → List ℚ → List ℚ) (xs ys : List ℚ) :
    (vmap_0none g xs ys).length = xs.length := by
  simp [vmap_0none]

/-! ### Claim theorems -/

/-- C3: with the hard-coded `W=[[0.2,0.4],[0.9,0.2]]` and `b=[0.2,0.3]`,
`dense_layer` on the single input `[1.1,1.2]` returns exactly
`[0.9, 1.53]` (the decimal printout `[0.900, 1.530]`). -/
theorem dense_layer_single_value :
    dense_layer (.vec inputs0) = some (.vec [9/10, 153/100]) := by
  norm_num [dense_layer, np_dot, np_add, dotq, inputs0]

/-- C2: feeding the 3x2 batch `inputs` straight into the unbatched
`dense_layer` hits the 2x2-by-3x2 dot product, whose inner dimensions
(2 and 3) cannot be aligned; the call errors (returns `none`) instead of
producing a value. -/
theorem dense_layer_batch_error :
    dense_layer (.mat inputs) = none := by
  norm_num [dense_layer, np_dot, np_add, dotq, ncols, inputs]

/-- C1: on the batch `inputs`, `einsum_layer`, `transpose_layer` and
`batched_dense = jax.vmap(dense_layer)` all return the same 3x2 matrix
`[[0.9,1.53],[1.5,2.63],[2.1,3.73]]`, and every row `i` of it is exactly
`dense_layer` of the `i`-th input vector alone. -/
theorem batched_formulations_agree :
    einsum_layer (.mat inputs)
        = some (.mat [[9/10, 153/100], [3/2, 263/100], [21/10, 373/100]])
      ∧ transpose_layer (.mat inputs)
        = some (.mat [[9/10, 153/100], [3/2, 263/100], [21/10, 373/100]])
      ∧ batched_dense (.mat inputs)
        = some (.mat [[9/10, 153/100], [3/2, 263/100], [21/10, 373/100]])
      ∧ ∀ i : Fin 3,
          dense_layer (.vec (inputs.getD i []))
            = some (.vec ([[9/10, 153/100], [3/2, 263/100],
                [21/10, 373/100]].getD i [])) := by
  refine ⟨?_, ?_, ?_, ?_⟩
  · norm_num [einsum_layer, einsum_ij_bj_bi, np_add, dotq, ncols, inputs]
  · norm_num [transpose_layer, np_dot, np_add, dotq, ncols, transposeQ,
      inputs, List.range_succ]
  · norm_num [batched_dense, vmap0, dense_layer, np_dot, np_add, dotq,
      Arr.asVec, inputs, List.mapM, List.mapM.loop]
  · intro i
    fin_cases i <;>
      norm_num [dense_layer, np_dot, np_add, dotq, inputs]

/-- C5: `jax.vmap(func, in_axes=(0,0))` of `func(x,y)=x+y` on
`x=[1,2,3]`, `y=[4,5,6]` zips the two arrays in lock-step and returns
`[5,7,9]`, element `i` being `x[i]+y[i]`. -/
theorem vmap00_add_value :
    vmap00 func_add [1, 2, 3] [4, 5, 6]
        = some [func_add 1 4, func_add 2 5, func_add 3 6]
      ∧ vmap00 func_add [1, 2, 3] [4, 5, 6] = some [5, 7, 9] := by
  constructor <;> norm_num [vmap00, func_add]

/-- C6: `jax.vmap(func, in_axes=(1,0))` of addition on `x=[[1,2,3]]`
(shape (1,3), batched along axis 1) and `y=[[4],[5],[6]]` (shape (3,1),
batched along axis 0) gives `[[5,7,9]]` of shape (1,3) under
`out_axes=1` and `[[5],[7],[9]]` of shape (3,1) under `out_axes=0`. -/
theorem vmap_in10_out_axes :
    vmap_in10 addVec 1 [[1, 2, 3]] [[4], [5], [6]] = some [[5, 7, 9]]
      ∧ vmap_in10 addVec 0 [[1, 2, 3]] [[4], [5], [6]]
        = some [[5], [7], [9]] := by
  constructor <;>
    norm_num [vmap_in10, addVec, transposeQ, ncols, List.range_succ,
      List.mapM, List.mapM.loop]

/-- C7: `jax.vmap(func, in_axes=(None,0))` of `func(x,y)=x*y` holds the
unbatched scalar `x=3.0` fixed and maps over `y=[3,4,5]`, returning
`[9,12,15]`, element `i` being `3.0*y[i]`. -/
theorem vmap_none0_mul_value :
    vmap_none0 func_mul 3 [3, 4, 5] = [func_mul 3 3, func_mul 3 4, func_mul 3 5]
      ∧ vmap_none0 func_mul 3 [3, 4, 5] = [9, 12, 15] := by
  constructor <;> norm_num [vmap_none0, func_mul]

/-- C8: for every 2-element input vector `x`, the transposed-operand
layer agrees exactly with the original unbatched layer:
`transpose_layer(x) = x.dot(W.T) + b = W.dot(x) + b = dense_layer(x)`. -/
theorem transpose_layer_extends_dense (x : List ℚ) (h : x.length = 2) :
    transpose_layer (.vec x) = dense_layer (.vec x) := by
  match x, h with
  | [a, c], _ =>
    simp [transpose_layer, dense_layer, np_dot, np_add, dotq, transposeQ,
      ncols, List.range_succ]
    constructor <;> ring

theorem transpose_layer_extends_dense_witness :
    inputs0.length = 2
      ∧ transpose_layer (.vec inputs0) = dense_layer (.vec inputs0) :=
  ⟨by norm_num [inputs0],
   transpose_layer_extends_dense inputs0 (by norm_num [inputs0])⟩

/-- C9: the einsum contraction `'ij,bj->bi'` needs a rank-2 `x`, so
`einsum_layer` errors on the rank-1 input `[1.1,1.2]` that `dense_layer`
accepts: the einsum workaround loses the unbatched calling convention. -/
theorem einsum_layer_rejects_unbatched :
    einsum_layer (.vec inputs0) = none
      ∧ dense_layer (.vec inputs0) ≠ none := by
  constructor
  · norm_num [einsum_layer, einsum_ij_bj_bi]
  · norm_num [dense_layer, np_dot, np_add, dotq, inputs0]
    exact Option.some_ne_none _

/-- C4: the doubly-nested
`jax.vmap(jax.vmap(func, in_axes=(None,0)), in_axes=(0,None))` of
`func(x,y)=sin(x)*y` over the 50-point ranges `x_range` and `y_range`
yields a 50x50 grid whose `(i,j)` entry is `sin(x_range[i]) * y_range[j]`,
for every abstract model `s` of `jnp.sin`. -/
theorem grid_out_entries (s : ℚ → ℚ) (i j : ℕ) (hi : i < 50) (hj : j < 50) :
    (grid_out s).length = 50
      ∧ ((grid_out s).getD i []).length = 50
      ∧ ((grid_out s).getD i []).getD j 0
          = s (x_range.getD i 0) * y_range.getD j 0 := by
  have hx : x_range.length = 50 := linspace_length _ _ _
  have hy : y_range.length = 50 := linspace_length _ _ _
  have hrow : (grid_out s).getD i []
      = vmap_none0 (func_siny s) (x_range.getD i 0) y_range := by
    rw [grid_out, vmap_0none,
      getD_map_of_lt (fun x => vmap_none0 (func_siny s) x y_range) x_range i
        (hx ▸ hi) [] 0]
  refine ⟨?_, ?_, ?_⟩
  · rw [grid_out, vmap_0none_length, hx]
  · rw [hrow, vmap_none0, List.length_map, hy]
  · rw [hrow, vmap_none0,
      getD_map_of_lt (func_siny s (x_range.getD i 0)) y_range j (hy ▸ hj) 0 0]
    rfl

theorem grid_out_entries_witness :
    (grid_out (fun q => q)).length = 50
      ∧ ((grid_out (fun q => q)).getD 0 []).length = 50
      ∧ ((grid_out (fun q => q)).getD 0 []).getD 0 0
          = (fun q : ℚ => q) (x_range.getD 0 0) * y_range.getD 0 0 :=
  grid_out_entries (fun q => q) 0 0 (by norm_num) (by norm_num)

/-- C10: every example function in the notebook is pure: its output is a
function of its arguments alone (the weights and bias are rebuilt from
the same literals inside each layer), so equal inputs give equal
outputs on any two runs. -/
theorem example_functions_deterministic (x₁ x₂ : Arr) (a₁ a₂ c₁ c₂ : ℚ)
    (s : ℚ → ℚ) (hx : x₁ = x₂) (ha : a₁ = a₂) (hc : c₁ = c₂) :
    dense_layer x₁ = dense_layer x₂
      ∧ einsum_layer x₁ = einsum_layer x₂
      ∧ transpose_layer x₁ = transpose_layer x₂
      ∧ batched_dense x₁ = batched_dense x₂
      ∧ func_add a₁ c₁ = func_add a₂ c₂
      ∧ func_mul a₁ c₁ = func_mul a₂ c₂
      ∧ func_siny s a₁ c₁ = func_siny s a₂ c₂ := by
  subst hx ha hc
  exact ⟨rfl, rfl, rfl, rfl, rfl, rfl, rfl⟩

theorem example_functions_deterministic_witness :
    dense_layer (.vec inputs0) = dense_layer (.vec inputs0)
      ∧ einsum_layer (.vec inputs0) = einsum_layer (.vec inputs0)
      ∧ transpose_layer (.vec inputs0) = transpose_layer (.vec inputs0)
      ∧ batched_dense (.vec inputs0) = batched_dense (.vec inputs0)
      ∧ func_add 1 2 = func_add 1 2
      ∧ func_mul 1 2 = func_mul 1 2
      ∧ func_siny (fun q => q) 1 2 = func_siny (fun q => q) 1 2 :=
  example_functions_deterministic (.vec inputs0) (.vec inputs0) 1 1 2 2
    (fun q => q) rfl rfl rfl
